import Mathlib

/-!
Verification of the site configuration file pelicanconf.py.

The file consists of nineteen top-level assignments of literal values.
We embed each assigned value with its source name, collect the bindings
into a configuration record (an ordered association list), and embed the
module itself as a list of (name, expression) assignments so that
claims about dependence between fields and determinism of evaluation
can be stated.
-/

namespace Pelicanconf

/-- The kinds of values assigned in the configuration file: strings,
the null value, integers, booleans, tuples of (label, URL) string pairs,
and a string-to-string dictionary. -/
inductive Value where
  | vnone : Value
  | vstr : String → Value
  | vint : Int → Value
  | vbool : Bool → Value
  | vpairs : List (String × String) → Value
  | vmap : List (String × String) → Value
deriving DecidableEq, Repr

/-- AUTHOR = 'José San Gil' -/
def AUTHOR : String := "José San Gil"

/-- SITENAME = 'HATE THAT CODE' -/
def SITENAME : String := "HATE THAT CODE"

/-- SITESUBTITLE = 'by josé san gil' -/
def SITESUBTITLE : String := "by josé san gil"

/-- SITEURL = '' -/
def SITEURL : String := ""

/-- PATH = 'content' -/
def PATH : String := "content"

/-- TIMEZONE = 'Europe/Madrid' -/
def TIMEZONE : String := "Europe/Madrid"

/-- DEFAULT_LANG = 'en' -/
def DEFAULT_LANG : String := "en"

/-- FEED_ALL_ATOM = None -/
def FEED_ALL_ATOM : Option String := Option.none

/-- CATEGORY_FEED_ATOM = None -/
def CATEGORY_FEED_ATOM : Option String := Option.none

/-- TRANSLATION_FEED_ATOM = None -/
def TRANSLATION_FEED_ATOM : Option String := Option.none

/-- AUTHOR_FEED_ATOM = None -/
def AUTHOR_FEED_ATOM : Option String := Option.none

/-- AUTHOR_FEED_RSS = None -/
def AUTHOR_FEED_RSS : Option String := Option.none

/-- GOOGLE_ANALYTICS = 'UA-11146701-2' -/
def GOOGLE_ANALYTICS : String := "UA-11146701-2"

/-- LINKS: the blogroll tuple of (label, URL) pairs. -/
def LINKS : List (String × String) :=
  [("Pelican", "http://getpelican.com/"),
   ("Python.org", "http://python.org/"),
   ("Jinja2", "http://jinja.pocoo.org/"),
   ("You can modify those links in your config file", "#")]

/-- SOCIAL: the social-widget tuple of (label, URL) pairs. -/
def SOCIAL : List (String × String) :=
  [("You can add links in your config file", "#"),
   ("Another social link", "#")]

/-- DEFAULT_PAGINATION = 10 -/
def DEFAULT_PAGINATION : Int := 10

/-- DISPLAY_PAGES_ON_MENU = False -/
def DISPLAY_PAGES_ON_MENU : Bool := false

/-- THEME = 'themes/hatethatcode' -/
def THEME : String := "themes/hatethatcode"

/-- DEFAUT_METADATA: the dictionary with key 'status' bound to 'draft'.
The source spells the name without the first L. -/
def DEFAUT_METADATA : List (String × String) := [("status", "draft")]

/-- Lift an optional string (a feed toggle) to a configuration value. -/
def optToValue : Option String → Value
  | Option.none => Value.vnone
  | some s => Value.vstr s

/-- The Site Configuration Record: the ordered association list of all
top-level bindings of pelicanconf.py, in source order. -/
def pelicanconf : List (String × Value) :=
  [("AUTHOR", Value.vstr AUTHOR),
   ("SITENAME", Value.vstr SITENAME),
   ("SITESUBTITLE", Value.vstr SITESUBTITLE),
   ("SITEURL", Value.vstr SITEURL),
   ("PATH", Value.vstr PATH),
   ("TIMEZONE", Value.vstr TIMEZONE),
   ("DEFAULT_LANG", Value.vstr DEFAULT_LANG),
   ("FEED_ALL_ATOM", optToValue FEED_ALL_ATOM),
   ("CATEGORY_FEED_ATOM", optToValue CATEGORY_FEED_ATOM),
   ("TRANSLATION_FEED_ATOM", optToValue TRANSLATION_FEED_ATOM),
   ("AUTHOR_FEED_ATOM", optToValue AUTHOR_FEED_ATOM),
   ("AUTHOR_FEED_RSS", optToValue AUTHOR_FEED_RSS),
   ("GOOGLE_ANALYTICS", Value.vstr GOOGLE_ANALYTICS),
   ("LINKS", Value.vpairs LINKS),
   ("SOCIAL", Value.vpairs SOCIAL),
   ("DEFAULT_PAGINATION", Value.vint DEFAULT_PAGINATION),
   ("DISPLAY_PAGES_ON_MENU", Value.vbool DISPLAY_PAGES_ON_MENU),
   ("THEME", Value.vstr THEME),
   ("DEFAUT_METADATA", Value.vmap DEFAUT_METADATA)]

/-- Look a key up in a configuration record: the first binding wins. -/
def lookupKey (cfg : List (String × Value)) (k : String) : Option Value :=
  match cfg with
  | [] => Option.none
  | (k2, v) :: rest => if k2 = k then some v else lookupKey rest k

/-- A value is a feed-toggle value when it is null (feed disabled) or a
feed-path string. -/
def isNullOrString : Value → Bool
  | Value.vnone => true
  | Value.vstr _ => true
  | _ => false

/-- Whether a list of characters contains FEED as a contiguous run. -/
def containsFeed : List Char → Bool
  | [] => false
  | c :: rest =>
    if (c :: rest).take 4 = ['F', 'E', 'E', 'D'] then true
    else containsFeed rest

/-- A configuration key names a feed toggle when it contains FEED. -/
def isFeedKey (k : String) : Bool := containsFeed k.data

/-- The feed-toggle fields of the configuration record. -/
def feedFields : List (String × Value) :=
  pelicanconf.filter (fun p => isFeedKey p.1)

/-- Right-hand sides a configuration assignment could have: a literal
constant, a reference to a previously assigned configuration name, or a
read of external state (environment, input). pelicanconf.py only ever
uses literals; the other constructors exist so that absence of
dependence and of external reads is a statement, not a tautology of the
expression type. -/
inductive Expr where
  | lit : Value → Expr
  | var : String → Expr
  | readExternal : String → Expr
deriving DecidableEq, Repr

/-- Whether an expression is a literal constant. -/
def Expr.isLit : Expr → Bool
  | Expr.lit _ => true
  | _ => false

/-- Evaluate an expression given the external world (what reads of
external state would return) and the bindings made so far. -/
def evalExpr (world : String → Option Value) (env : List (String × Value)) :
    Expr → Option Value
  | Expr.lit v => some v
  | Expr.var n => lookupKey env n
  | Expr.readExternal k => world k

/-- The module body of pelicanconf.py: its top-level assignments in
source order, each right-hand side the literal written in the source. -/
def pelicanconfSrc : List (String × Expr) :=
  [("AUTHOR", Expr.lit (Value.vstr AUTHOR)),
   ("SITENAME", Expr.lit (Value.vstr SITENAME)),
   ("SITESUBTITLE", Expr.lit (Value.vstr SITESUBTITLE)),
   ("SITEURL", Expr.lit (Value.vstr SITEURL)),
   ("PATH", Expr.lit (Value.vstr PATH)),
   ("TIMEZONE", Expr.lit (Value.vstr TIMEZONE)),
   ("DEFAULT_LANG", Expr.lit (Value.vstr DEFAULT_LANG)),
   ("FEED_ALL_ATOM", Expr.lit (optToValue FEED_ALL_ATOM)),
   ("CATEGORY_FEED_ATOM", Expr.lit (optToValue CATEGORY_FEED_ATOM)),
   ("TRANSLATION_FEED_ATOM", Expr.lit (optToValue TRANSLATION_FEED_ATOM)),
   ("AUTHOR_FEED_ATOM", Expr.lit (optToValue AUTHOR_FEED_ATOM)),
   ("AUTHOR_FEED_RSS", Expr.lit (optToValue AUTHOR_FEED_RSS)),
   ("GOOGLE_ANALYTICS", Expr.lit (Value.vstr GOOGLE_ANALYTICS)),
   ("LINKS", Expr.lit (Value.vpairs LINKS)),
   ("SOCIAL", Expr.lit (Value.vpairs SOCIAL)),
   ("DEFAULT_PAGINATION", Expr.lit (Value.vint DEFAULT_PAGINATION)),
   ("DISPLAY_PAGES_ON_MENU", Expr.lit (Value.vbool DISPLAY_PAGES_ON_MENU)),
   ("THEME", Expr.lit (Value.vstr THEME)),
   ("DEFAUT_METADATA", Expr.lit (Value.vmap DEFAUT_METADATA))]

/-- Run a list of assignments in order, extending the environment with
each binding; evaluation fails if any right-hand side fails. -/
def runBindings (world : String → Option Value) :
    List (String × Expr) → List (String × Value) →
    Option (List (String × Value))
  | [], env => some env
  | (k, e) :: rest, env =>
    match evalExpr world env e with
    | some v => runBindings world rest (env ++ [(k, v)])
    | Option.none => Option.none

/-- Evaluate the whole module under a given external world. -/
def runModule (world : String → Option Value) :
    Option (List (String × Value)) :=
  runBindings world pelicanconfSrc []

/-- Modelled from the spec: the external generator and its serialization
of settings are not part of this repository, so a concrete field-level
serialization is supplied here. A string is written as its character
count, a colon, then its characters. -/
def encodeStr (s : String) : String := toString s.length ++ ":" ++ s

/-- Serialize one (label, URL) pair. -/
def encodePair (p : String × String) : String := encodeStr p.1 ++ encodeStr p.2

/-- Serialize a list of string pairs: its length, a colon, the pairs. -/
def encodePairs (l : List (String × String)) : String :=
  toString l.length ++ ":" ++ String.join (l.map encodePair)

/-- Serialize a configuration value, with a one-letter tag per kind. -/
def encodeValue : Value → String
  | Value.vnone => "N"
  | Value.vstr s => "S" ++ encodeStr s
  | Value.vint n => "I" ++ (if n < 0 then "-" else "+") ++ toString n.natAbs ++ ";"
  | Value.vbool b => if b then "B1" else "B0"
  | Value.vpairs l => "P" ++ encodePairs l
  | Value.vmap l => "M" ++ encodePairs l

/-- Serialize a configuration record: each key followed by its value. -/
def serialize (cfg : List (String × Value)) : String :=
  String.join (cfg.map (fun p => encodeStr p.1 ++ encodeValue p.2))

/-- Read a decimal number terminated by the given character. -/
def readNatUntil (stop : Char) : List Char → Nat → Option (Nat × List Char)
  | [], _ => Option.none
  | c :: rest, acc =>
    if c = stop then some (acc, rest)
    else if c.isDigit then readNatUntil stop rest (acc * 10 + (c.toNat - 48))
    else Option.none

/-- Split off the first n characters, failing when fewer remain. -/
def takeChars : Nat → List Char → Option (List Char × List Char)
  | 0, cs => some ([], cs)
  | _ + 1, [] => Option.none
  | n + 1, c :: cs => (takeChars n cs).map (fun r => (c :: r.1, r.2))

/-- Read back one length-prefixed string. -/
def readStr (cs : List Char) : Option (String × List Char) :=
  match readNatUntil ':' cs 0 with
  | some (n, rest) => (takeChars n rest).map (fun r => (String.mk r.1, r.2))
  | Option.none => Option.none

/-- Read back a known number of string pairs. -/
def readPairsAux : Nat → List Char → Option (List (String × String) × List Char)
  | 0, cs => some ([], cs)
  | n + 1, cs =>
    match readStr cs with
    | some (a, cs1) =>
      match readStr cs1 with
      | some (b, cs2) => (readPairsAux n cs2).map (fun r => ((a, b) :: r.1, r.2))
      | Option.none => Option.none
    | Option.none => Option.none

/-- Read back a length-prefixed list of string pairs. -/
def readPairs (cs : List Char) : Option (List (String × String) × List Char) :=
  match readNatUntil ':' cs 0 with
  | some (n, rest) => readPairsAux n rest
  | Option.none => Option.none

/-- Read back one tagged configuration value. -/
def decodeValue : List Char → Option (Value × List Char)
  | [] => Option.none
  | c :: cs =>
    if c = 'N' then some (Value.vnone, cs)
    else if c = 'S' then (readStr cs).map (fun r => (Value.vstr r.1, r.2))
    else if c = 'I' then
      match cs with
      | sign :: cs1 =>
        match readNatUntil ';' cs1 0 with
        | some (n, rest) =>
          if sign = '-' then some (Value.vint (-(n : Int)), rest)
          else if sign = '+' then some (Value.vint (n : Int), rest)
          else Option.none
        | Option.none => Option.none
      | [] => Option.none
    else if c = 'B' then
      match cs with
      | b :: cs1 =>
        if b = '1' then some (Value.vbool true, cs1)
        else if b = '0' then some (Value.vbool false, cs1)
        else Option.none
      | [] => Option.none
    else if c = 'P' then (readPairs cs).map (fun r => (Value.vpairs r.1, r.2))
    else if c = 'M' then (readPairs cs).map (fun r => (Value.vmap r.1, r.2))
    else Option.none

/-- Read back a whole record, field by field; the fuel bounds the number
of fields and a field always consumes at least one character. -/
def decodeFields : Nat → List Char → Option (List (String × Value))
  | _, [] => some []
  | 0, _ :: _ => Option.none
  | fuel + 1, cs =>
    match readStr cs with
    | some (k, cs1) =>
      match decodeValue cs1 with
      | some (v, cs2) => (decodeFields fuel cs2).map (fun r => (k, v) :: r)
      | Option.none => Option.none
    | Option.none => Option.none

/-- Reload a serialized configuration record from file contents. -/
def deserialize (s : String) : Option (List (String × Value)) :=
  decodeFields s.length s.data

/-- Modelled from the spec: the external generator's enumerated set of
valid content states; the spec names draft and published as examples.
The generator itself is outside this repository. -/
def validContentStates : List String := ["draft", "published"]

/-- Under any external world the module evaluates successfully to the
configuration record, because every right-hand side is a literal. -/
theorem runModule_eq_pelicanconf (w : String → Option Value) :
    runModule w = some pelicanconf := rfl

/-- Claim C1: the configuration record contains a field whose key is
spelled DEFAUT_METADATA, and an exact-match lookup of the expected key
DEFAULT_METADATA returns no value from this configuration. -/
theorem defaut_metadata_misspelled :
    lookupKey pelicanconf "DEFAUT_METADATA"
      = some (Value.vmap [("status", "draft")]) ∧
    lookupKey pelicanconf "DEFAULT_METADATA" = Option.none := by
  decide

/-- Claim C2 counterexample: the configuration record does not contain
exactly four feed-toggle fields; it contains five. -/
theorem feed_toggle_count_not_four :
    feedFields.length = 5 ∧ ¬ feedFields.length = 4 := by
  decide

/-- Claim C2 (amended): the configuration record contains exactly five
feed-toggle fields, each of which is an optional string or absent. -/
theorem feed_toggle_fields_five_null_or_string :
    feedFields.map Prod.fst =
      ["FEED_ALL_ATOM", "CATEGORY_FEED_ATOM", "TRANSLATION_FEED_ATOM",
       "AUTHOR_FEED_ATOM", "AUTHOR_FEED_RSS"] ∧
    feedFields.length = 5 ∧
    feedFields.all (fun p => isNullOrString p.2) = true := by
  decide

/-- Claim C3: every feed-related field of the configuration is either
absent/null or a feed-path string, and in this configuration each of
the five is null. -/
theorem feed_fields_all_null :
    lookupKey pelicanconf "FEED_ALL_ATOM" = some Value.vnone ∧
    lookupKey pelicanconf "CATEGORY_FEED_ATOM" = some Value.vnone ∧
    lookupKey pelicanconf "TRANSLATION_FEED_ATOM" = some Value.vnone ∧
    lookupKey pelicanconf "AUTHOR_FEED_ATOM" = some Value.vnone ∧
    lookupKey pelicanconf "AUTHOR_FEED_RSS" = some Value.vnone ∧
    feedFields.all (fun p => isNullOrString p.2) = true := by
  decide

/-- Claim C4: every entry of the navigation link list LINKS and of the
social link list SOCIAL is a (label, URL) pair of two non-empty strings. -/
theorem links_social_nonempty_pairs :
    lookupKey pelicanconf "LINKS" = some (Value.vpairs LINKS) ∧
    lookupKey pelicanconf "SOCIAL" = some (Value.vpairs SOCIAL) ∧
    (LINKS ++ SOCIAL).all (fun p => !p.1.isEmpty && !p.2.isEmpty) = true := by
  decide

/-- Claim C5: the pagination-size field DEFAULT_PAGINATION is a positive
integer and its value is 10. -/
theorem default_pagination_positive_ten :
    lookupKey pelicanconf "DEFAULT_PAGINATION"
      = some (Value.vint DEFAULT_PAGINATION) ∧
    DEFAULT_PAGINATION = 10 ∧ 0 < DEFAULT_PAGINATION := by
  decide

/-- Claim C6: the default-metadata field is a mapping with exactly one
key, status, whose value is a member of the enumerated set of valid
content states; in this configuration it is draft. -/
theorem defaut_metadata_status_draft_valid :
    lookupKey pelicanconf "DEFAUT_METADATA" = some (Value.vmap DEFAUT_METADATA) ∧
    DEFAUT_METADATA.map Prod.fst = ["status"] ∧
    DEFAUT_METADATA = [("status", "draft")] ∧
    "draft" ∈ validContentStates := by
  decide

/-- Claim C7: every assignment's right-hand side is a literal constant,
so no field is computed from another; every name is assigned exactly
once, so fields are immutable after loading; and evaluation yields
exactly the configuration record. -/
theorem config_literal_independent_immutable :
    pelicanconfSrc.all (fun b => Expr.isLit b.2) = true ∧
    (pelicanconfSrc.map Prod.fst).Nodup ∧
    runModule (fun _ => Option.none) = some pelicanconf :=
  ⟨by decide, by decide, runModule_eq_pelicanconf _⟩

set_option maxRecDepth 100000 in
/-- Claim C8: serializing the configuration record defined by this file
and reloading it yields a record field-for-field equal to the original. -/
theorem serialize_roundtrip :
    deserialize (serialize pelicanconf) = some pelicanconf := by
  decide

/-- Claim C9: the site URL field SITEURL is the empty string, so a
consumer deriving absolute links from it receives an empty base URL. -/
theorem siteurl_empty_string :
    lookupKey pelicanconf "SITEURL" = some (Value.vstr "") ∧
    SITEURL = "" ∧ SITEURL.isEmpty = true := by
  decide

/-- Claim C10: evaluating the configuration module is deterministic: it
performs no read of external state, so any two evaluations, under any
two external worlds, produce identical values for every field. -/
theorem module_eval_deterministic :
    ∀ u v : String → Option Value, runModule u = runModule v :=
  fun u v => (runModule_eq_pelicanconf u).trans (runModule_eq_pelicanconf v).symm

/-- Claim C10 witness: two concrete distinct external worlds give the
same evaluation of the module. -/
theorem module_eval_deterministic_witness :
    runModule (fun _ => some (Value.vstr "x")) = runModule (fun _ => Option.none) :=
  module_eval_deterministic (fun _ => some (Value.vstr "x")) (fun _ => Option.none)

end Pelicanconf
